import Mathlib

/-!
Verification of the hash-wasm algorithm facades (src/lib/crc32.ts,
src/lib/sha224.ts, src/lib/xxhash64.ts) against their natural-language
specification.

The facade files under src are translated directly.  Their collaborators
WASMInterface (the Compute Module wrapper), Mutex and lockedCreate are not
part of the provided sources, so they are modelled from the specification:
the Compute Module wrapper from section 4.3, the Module Loader from
section 4.2, and the Mutex plus lockedCreate combination from the
Single-Flight Cache Cell contract of section 4.1.

Machine numbers from the host language are modelled as rationals (Rat), so
that non-integral and negative seed values can be expressed; byte arrays
are lists of Nat.
-/

namespace HashWasm

/-- Errors of the error taxonomy in section 7 of the specification. -/
inductive HashError where
  | validationError (msg : String)
  | loadError
  | computeError
  | inputOutputError
deriving DecidableEq, Repr

/-- Modelled from the spec: a backend descriptor is an opaque payload plus a
declared linear-memory size in bytes (section 6).  The algId distinguishes
the per-algorithm wasm json blobs; memSize is the declared memory size. -/
structure Descriptor where
  algId : Nat
  memSize : Nat
deriving DecidableEq, Repr

/-- The descriptor imported as wasmJson in src/lib/crc32.ts. -/
def crc32Json : Descriptor := { algId := 0, memSize := 32 }

/-- The descriptor imported as wasmJson in src/lib/sha224.ts (sha256 blob). -/
def sha256Json : Descriptor := { algId := 1, memSize := 32 }

/-- The descriptor imported as wasmJson in src/lib/xxhash64.ts. -/
def xxhash64Json : Descriptor := { algId := 2, memSize := 32 }

/-- Modelled from the spec: the Compute Module wrapper (WASMInterface, not
under src) owns one Backend Module with a linear byte memory and an opaque
internal state region (sections 3 and 4.3).  The internal state region is
kept abstract as a byte list st; memory is the linear memory. -/
structure ComputeModule where
  desc : Descriptor
  hashLength : Nat
  memory : List Nat
  st : List Nat
deriving DecidableEq, Repr

/-- Modelled from the spec: writeMemory copies bytes into the linear memory
of the backend starting at offset 0 and fails with a ComputeError when out
of bounds (section 4.3). -/
def ComputeModule.writeMemory (m : ComputeModule) (bytes : List Nat) :
    Except HashError ComputeModule :=
  if bytes.length ≤ m.memory.length then
    Except.ok { m with memory := bytes ++ m.memory.drop bytes.length }
  else
    Except.error HashError.computeError

/-- Modelled from the spec: the abstract internal state installed by init.
The backend reads its seed material from the start of linear memory
(section 3, Seed Material is written into memory before init), and the
variant selects an output-size family member (section 4.3). -/
def initState (variant : Option Nat) (seedRegion : List Nat) : List Nat :=
  variant.getD 0 :: seedRegion

/-- Modelled from the spec: init resets the backend internal hash state,
capturing the seed region of linear memory, optionally selecting a
variant; it is idempotent and callable repeatedly (section 4.3). -/
def ComputeModule.init (m : ComputeModule) (variant : Option Nat) : ComputeModule :=
  { m with st := initState variant (m.memory.take 8) }

/-- Modelled from the spec: update marshals the input bytes into the
linear memory of the backend (the writeMemory contract of section 4.3,
failing with ComputeError when the input does not fit) and feeds them to
the incremental compression function, which is kept abstract as
order-sensitive accumulation into the state region. -/
def ComputeModule.update (m : ComputeModule) (bytes : List Nat) :
    Except HashError ComputeModule :=
  match m.writeMemory bytes with
  | Except.error e => Except.error e
  | Except.ok m2 => Except.ok { m2 with st := m2.st ++ bytes }

/-- One lowercase hexadecimal digit. -/
def hexDigit (n : Nat) : Char :=
  if n < 10 then Char.ofNat (48 + n) else Char.ofNat (87 + n)

/-- Lowercase hexadecimal rendering of a byte list. -/
def toHex (bs : List Nat) : String :=
  String.mk (bs.foldr (fun b acc => hexDigit (b / 16 % 16) :: hexDigit (b % 16) :: acc) [])

/-- Modelled from the spec: digest reads the finalized state through a
formatting function and does not mutate hashing state (section 4.3); the
hexadecimal rendering used by calculate. -/
def ComputeModule.digestHex (m : ComputeModule) : String :=
  toHex m.st

/-- Modelled from the spec: save copies the algorithm-defined internal
state region verbatim out of backend memory (section 4.3). -/
def ComputeModule.save (m : ComputeModule) : List Nat :=
  m.st

/-- Modelled from the spec: load copies a saved blob verbatim back into
the internal state region of the backend (section 4.3); it changes only
that byte content. -/
def ComputeModule.load (m : ComputeModule) (blob : List Nat) : ComputeModule :=
  { m with st := blob }

/-- Modelled from the spec: calculate is the convenience composite
init, update(data), digest(hex) (section 4.3).  It returns the mutated
module together with the asynchronous outcome; a failing step leaves the
mutations performed before the failure in place. -/
def ComputeModule.calculate (m : ComputeModule) (data : List Nat)
    (variant : Option Nat) : ComputeModule × Except HashError String :=
  let m1 := m.init variant
  match m1.update data with
  | Except.error e => (m1, Except.error e)
  | Except.ok m2 => (m2, Except.ok m2.digestHex)

/-- Modelled from the spec: the Module Loader produces a fresh Backend
Module for a descriptor and a declared hash length, with zeroed linear
memory (section 4.2).  This is the synchronous outcome of the async
factory WASMInterface. -/
def createModule (desc : Descriptor) (hashLength : Nat) : ComputeModule :=
  { desc := desc, hashLength := hashLength,
    memory := List.replicate desc.memSize 0, st := [] }

/-- Modelled from the spec: the state of the Single-Flight Cache Cell that
the Mutex plus lockedCreate combination implements (section 4.1): Empty,
Loading with its queued waiters, or Ready with the id of the loaded
module.  The waiter payload type varies per algorithm. -/
inductive CellState (ρ : Type) where
  | empty
  | loading (waiters : List ρ)
  | ready (moduleId : Nat)
deriving DecidableEq, Repr

/-- The module-level mutable state of one algorithm facade file.  modules
is the heap of Compute Modules allocated for this algorithm (ids are list
indices, so object identity is expressible); wasmCache is the module-level
wasmCache variable; cell is the Single-Flight Cache Cell behind mutex and
lockedCreate; loaderCalls counts Module Loader invocations; seedBuffer is
the module-level const seedBuffer of src/lib/xxhash64.ts (8 bytes, unused
by the crc32 and sha224 facades). -/
structure FacadeState (ρ : Type) where
  modules : List ComputeModule
  wasmCache : Option Nat
  cell : CellState ρ
  loaderCalls : Nat
  seedBuffer : List Nat
deriving DecidableEq, Repr

/-- The initial module-level state of a facade file: no module allocated,
wasmCache is null, the cell is empty, and seedBuffer is a fresh 8-byte
zeroed ArrayBuffer. -/
def freshFacade {ρ : Type} : FacadeState ρ :=
  { modules := [], wasmCache := none, cell := CellState.empty,
    loaderCalls := 0, seedBuffer := List.replicate 8 0 }

/-- Runs wasmCache.calculate(data, variant) against the module with the
given id, writing the mutated module back into the heap. -/
def facadeCachedCalc {ρ : Type} (s : FacadeState ρ) (id : Nat)
    (data : List Nat) (variant : Option Nat) :
    FacadeState ρ × Except HashError String :=
  match s.modules.get? id with
  | none => (s, Except.error HashError.computeError)
  | some m =>
      let p := m.calculate data variant
      ({ s with modules := s.modules.set id p.1 }, p.2)

/-- The error built by validateSeed in src/lib/xxhash64.ts. -/
def seedErrMsg : String :=
  "Seed must be given as two valid 32-bit long unsigned integer (lo + high)."

/-- validateSeed from src/lib/xxhash64.ts: rejects a seed component that is
not an integer (den different from 1 models the Number.isInteger test) or
lies outside the unsigned 32-bit range. -/
def validateSeed (seed : Rat) : Option HashError :=
  if seed.den ≠ 1 ∨ seed.num < 0 ∨ seed.num > 4294967295 then
    some (HashError.validationError seedErrMsg)
  else
    none

/-- The unsigned 32-bit coercion performed by DataView.setUint32. -/
def ratToUInt32 (q : Rat) : Nat :=
  q.num.toNat % 4294967296

/-- Four little-endian bytes of an unsigned 32-bit value. -/
def le32 (n : Nat) : List Nat :=
  [n % 256, n / 256 % 256, n / 65536 % 256, n / 16777216 % 256]

/-- writeSeed from src/lib/xxhash64.ts: the 8-byte little-endian encoding
of the seed pair, low word at offset 0, high word at offset 4. -/
def writeSeed (low high : Rat) : List Nat :=
  le32 (ratToUInt32 low) ++ le32 (ratToUInt32 high)

/-- The crc32 one-shot facade, src/lib/crc32.ts, run to completion with the
single suspension point (the Module Loader inside lockedCreate) resolved
in place: on a cache miss lockedCreate drives one loader call, the result
is stored in wasmCache, and calculate(data) runs against it; on a cache
hit calculate(data) runs directly, a thrown error becoming a rejected
promise. -/
def crc32Run (s : FacadeState (List Nat)) (data : List Nat) :
    FacadeState (List Nat) × Except HashError String :=
  match s.wasmCache with
  | none =>
      let id := s.modules.length
      let s2 := { s with
        modules := s.modules ++ [createModule crc32Json 4],
        cell := CellState.ready id,
        loaderCalls := s.loaderCalls + 1,
        wasmCache := some id }
      facadeCachedCalc s2 id data none
  | some id => facadeCachedCalc s id data none

/-- The sha224 one-shot facade, src/lib/sha224.ts, run to completion: same
shape as crc32Run with the sha256 blob, hash length 28 and variant 224. -/
def sha224Run (s : FacadeState (List Nat)) (data : List Nat) :
    FacadeState (List Nat) × Except HashError String :=
  match s.wasmCache with
  | none =>
      let id := s.modules.length
      let s2 := { s with
        modules := s.modules ++ [createModule sha256Json 28],
        cell := CellState.ready id,
        loaderCalls := s.loaderCalls + 1,
        wasmCache := some id }
      facadeCachedCalc s2 id data (some 224)
  | some id => facadeCachedCalc s id data (some 224)

/-- The seed-write plus calculate tail shared by every xxhash64 one-shot
path: wasmCache.writeMemory(new Uint8Array(seedBuffer)) followed by
wasmCache.calculate(data), against the module with the given id. -/
def xxhashSeedAndCalc (s : FacadeState ρ) (id : Nat) (data : List Nat) :
    FacadeState ρ × Except HashError String :=
  match s.modules.get? id with
  | none => (s, Except.error HashError.computeError)
  | some m =>
      match m.writeMemory s.seedBuffer with
      | Except.error e => (s, Except.error e)
      | Except.ok m2 =>
          let p := m2.calculate data none
          ({ s with modules := (s.modules.set id m2).set id p.1 }, p.2)

/-- A queued first-use request of the xxhash64 facade: the input data and
the already-validated seed pair of that call. -/
structure XXReq where
  data : List Nat
  seedLow : Rat
  seedHigh : Rat
deriving DecidableEq, Repr

/-- The xxhash64 one-shot facade, src/lib/xxhash64.ts, run to completion.
Optional seed arguments model the source default parameters seedLow = 0
and seedHigh = 0.  Both components are validated before the cache is even
consulted; then, on either path, the module-level seedBuffer is
overwritten with the little-endian seed encoding, written into backend
memory, and calculate(data) runs. -/
def xxhash64Run (s : FacadeState XXReq) (data : List Nat)
    (seedLowArg : Option Rat) (seedHighArg : Option Rat) :
    FacadeState XXReq × Except HashError String :=
  let seedLow := seedLowArg.getD 0
  let seedHigh := seedHighArg.getD 0
  match validateSeed seedLow with
  | some e => (s, Except.error e)
  | none =>
  match validateSeed seedHigh with
  | some e => (s, Except.error e)
  | none =>
  match s.wasmCache with
  | none =>
      let id := s.modules.length
      let s2 := { s with
        modules := s.modules ++ [createModule xxhash64Json 8],
        cell := CellState.ready id,
        loaderCalls := s.loaderCalls + 1,
        wasmCache := some id,
        seedBuffer := writeSeed seedLow seedHigh }
      xxhashSeedAndCalc s2 id data
  | some id =>
      let s2 := { s with seedBuffer := writeSeed seedLow seedHigh }
      xxhashSeedAndCalc s2 id data

/-- The spec labels of the Hasher logical state machine (section 4.5). -/
inductive HLabel where
  | initializedL
  | accumulatingL
  | digestedL
deriving DecidableEq, Repr

/-- The operations of the Hasher protocol. -/
inductive HOp where
  | initOp
  | updateOp
  | digestOp
  | saveOp
  | loadOp
deriving DecidableEq, Repr

/-- Modelled from the spec: the logical state label transition of section
4.5.  init returns to Initialized from any state; update moves to
Accumulating; digest moves to Digested; save and load keep the label. -/
def labelStep : HLabel → HOp → HLabel
  | _, HOp.initOp => HLabel.initializedL
  | _, HOp.updateOp => HLabel.accumulatingL
  | _, HOp.digestOp => HLabel.digestedL
  | l, HOp.saveOp => l
  | l, HOp.loadOp => l

/-- The streaming handle returned by a createHasher facade function: the
id of its private Compute Module, the reported block and digest sizes, and
the operation closures of the returned object literal.  save and load are
optional because not every facade file includes them in its object. -/
structure IHasher where
  moduleId : Nat
  blockSize : Nat
  digestSize : Nat
  initFn : ComputeModule → Except HashError ComputeModule
  updateFn : ComputeModule → List Nat → Except HashError ComputeModule
  digestFn : ComputeModule → String
  saveFn : Option (ComputeModule → List Nat)
  loadFn : Option (ComputeModule → List Nat → ComputeModule)

/-- createCRC32 from src/lib/crc32.ts: a fresh private Compute Module is
produced by the Module Loader (bypassing mutex, cell and wasmCache),
wasm.init() runs, and the object literal closes over that module. -/
def createCRC32Run (s : FacadeState (List Nat)) :
    FacadeState (List Nat) × IHasher :=
  let id := s.modules.length
  let m := (createModule crc32Json 4).init none
  let s2 := { s with
    modules := s.modules ++ [m],
    loaderCalls := s.loaderCalls + 1 }
  let h : IHasher := {
    moduleId := id, blockSize := 4, digestSize := 4,
    initFn := (fun mm => Except.ok (mm.init none)),
    updateFn := ComputeModule.update,
    digestFn := ComputeModule.digestHex,
    saveFn := some ComputeModule.save,
    loadFn := some ComputeModule.load }
  (s2, h)

/-- createSHA224 from src/lib/sha224.ts: a fresh private Compute Module,
wasm.init(224), and an object literal that exposes init, update and digest
but no save and no load. -/
def createSHA224Run (s : FacadeState (List Nat)) :
    FacadeState (List Nat) × IHasher :=
  let id := s.modules.length
  let m := (createModule sha256Json 28).init (some 224)
  let s2 := { s with
    modules := s.modules ++ [m],
    loaderCalls := s.loaderCalls + 1 }
  let h : IHasher := {
    moduleId := id, blockSize := 64, digestSize := 28,
    initFn := (fun mm => Except.ok (mm.init (some 224))),
    updateFn := ComputeModule.update,
    digestFn := ComputeModule.digestHex,
    saveFn := none,
    loadFn := none }
  (s2, h)

/-- createXXHash64 from src/lib/xxhash64.ts: both seed components are
validated first; then a fresh private Compute Module is produced, an
instance-owned 8-byte buffer receives the little-endian seed encoding, it
is written into backend memory, wasm.init() runs, and the object literal
closes over the module and that instance buffer, its init closure
rewriting the buffer into memory before every wasm.init(). -/
def createXXHash64Run (s : FacadeState XXReq)
    (seedLowArg : Option Rat) (seedHighArg : Option Rat) :
    Except HashError (FacadeState XXReq × IHasher) :=
  let seedLow := seedLowArg.getD 0
  let seedHigh := seedHighArg.getD 0
  match validateSeed seedLow with
  | some e => Except.error e
  | none =>
  match validateSeed seedHigh with
  | some e => Except.error e
  | none =>
    let id := s.modules.length
    let instanceBuffer := writeSeed seedLow seedHigh
    match (createModule xxhash64Json 8).writeMemory instanceBuffer with
    | Except.error e => Except.error e
    | Except.ok m1 =>
        let m2 := m1.init none
        let s2 := { s with
          modules := s.modules ++ [m2],
          loaderCalls := s.loaderCalls + 1 }
        let h : IHasher := {
          moduleId := id, blockSize := 32, digestSize := 8,
          initFn := (fun mm =>
            match mm.writeMemory instanceBuffer with
            | Except.error e => Except.error e
            | Except.ok m3 => Except.ok (m3.init none)),
          updateFn := ComputeModule.update,
          digestFn := ComputeModule.digestHex,
          saveFn := some ComputeModule.save,
          loadFn := some ComputeModule.load }
        Except.ok (s2, h)

/-!
Interleaved execution model for concurrent first-use calls.  Per section 5
of the specification the Module Loader is the only suspension point, so a
one-shot call decomposes into a synchronous start (everything up to the
suspension inside lockedCreate, or the whole call when nothing suspends)
and, for queued callers, a resumption when the single in-flight load
completes.  The start functions below are the synchronous prefixes of the
facade functions; the complete functions deliver the load outcome to every
queued waiter in order, running the per-file then-continuation for each.
-/

/-- Resolves the queued waiters of a completed load in order: each waiter
runs its resumption against the freshly loaded module id, and the pair of
the module id it used and its outcome is recorded. -/
def resolveWaiters {ρ : Type}
    (resume : FacadeState ρ → Nat → ρ → FacadeState ρ × Except HashError String)
    (id : Nat) (ws : List ρ) (s : FacadeState ρ) :
    FacadeState ρ × List (Nat × Except HashError String) :=
  ws.foldl (fun acc r =>
    let p := resume acc.1 id r
    (p.1, acc.2 ++ [(id, p.2)])) (s, [])

/-- The then-continuation of the crc32 miss path: wasmCache = wasm, then
wasmCache.calculate(data). -/
def crc32Resume (s : FacadeState (List Nat)) (id : Nat) (data : List Nat) :
    FacadeState (List Nat) × Except HashError String :=
  facadeCachedCalc { s with wasmCache := some id } id data none

/-- The then-continuation of the sha224 miss path: wasmCache = wasm, then
wasmCache.calculate(data, 224). -/
def sha224Resume (s : FacadeState (List Nat)) (id : Nat) (data : List Nat) :
    FacadeState (List Nat) × Except HashError String :=
  facadeCachedCalc { s with wasmCache := some id } id data (some 224)

/-- The then-continuation of the xxhash64 miss path: wasmCache = wasm,
writeSeed into the module-level seedBuffer, write it to backend memory,
then wasmCache.calculate(data). -/
def xxhashResume (s : FacadeState XXReq) (id : Nat) (r : XXReq) :
    FacadeState XXReq × Except HashError String :=
  xxhashSeedAndCalc
    { s with wasmCache := some id, seedBuffer := writeSeed r.seedLow r.seedHigh }
    id r.data

/-- Synchronous prefix of one crc32(data) call: a cache hit computes at
once; otherwise lockedCreate is entered, which on an Empty cell invokes
the Module Loader exactly once and on a Loading cell only queues the
caller (the single-flight contract of section 4.1); a Ready cell replays
the recorded module without a further load. -/
def crc32Start (s : FacadeState (List Nat)) (data : List Nat) :
    FacadeState (List Nat) × Option (Except HashError String) :=
  match s.wasmCache with
  | some id =>
      let p := facadeCachedCalc s id data none
      (p.1, some p.2)
  | none =>
    match s.cell with
    | CellState.empty =>
        ({ s with
           cell := CellState.loading [data],
           loaderCalls := s.loaderCalls + 1 }, none)
    | CellState.loading ws =>
        ({ s with cell := CellState.loading (ws ++ [data]) }, none)
    | CellState.ready id =>
        let p := crc32Resume s id data
        (p.1, some p.2)

/-- Completion of the single in-flight crc32 load: the loader outcome (a
fresh module) is recorded in the cell and every queued waiter is resumed
with it. -/
def crc32Complete (s : FacadeState (List Nat)) :
    FacadeState (List Nat) × List (Nat × Except HashError String) :=
  match s.cell with
  | CellState.loading ws =>
      let id := s.modules.length
      let s2 := { s with
        modules := s.modules ++ [createModule crc32Json 4],
        cell := CellState.ready id }
      resolveWaiters crc32Resume id ws s2
  | _ => (s, [])

/-- Synchronous prefix of one sha224(data) call; same shape as crc32Start
with the sha256 blob, hash length 28 and variant 224. -/
def sha224Start (s : FacadeState (List Nat)) (data : List Nat) :
    FacadeState (List Nat) × Option (Except HashError String) :=
  match s.wasmCache with
  | some id =>
      let p := facadeCachedCalc s id data (some 224)
      (p.1, some p.2)
  | none =>
    match s.cell with
    | CellState.empty =>
        ({ s with
           cell := CellState.loading [data],
           loaderCalls := s.loaderCalls + 1 }, none)
    | CellState.loading ws =>
        ({ s with cell := CellState.loading (ws ++ [data]) }, none)
    | CellState.ready id =>
        let p := sha224Resume s id data
        (p.1, some p.2)

/-- Completion of the single in-flight sha224 load. -/
def sha224Complete (s : FacadeState (List Nat)) :
    FacadeState (List Nat) × List (Nat × Except HashError String) :=
  match s.cell with
  | CellState.loading ws =>
      let id := s.modules.length
      let s2 := { s with
        modules := s.modules ++ [createModule sha256Json 28],
        cell := CellState.ready id }
      resolveWaiters sha224Resume id ws s2
  | _ => (s, [])

/-- Synchronous prefix of one xxhash64(data, seedLow, seedHigh) call: both
seed components are validated before the cache or the cell is consulted;
an invalid seed rejects at once; a valid call then behaves like the crc32
prefix, a queued waiter carrying its data and seed pair. -/
def xxhash64Start (s : FacadeState XXReq) (data : List Nat)
    (seedLowArg : Option Rat) (seedHighArg : Option Rat) :
    FacadeState XXReq × Option (Except HashError String) :=
  let seedLow := seedLowArg.getD 0
  let seedHigh := seedHighArg.getD 0
  match validateSeed seedLow with
  | some e => (s, some (Except.error e))
  | none =>
  match validateSeed seedHigh with
  | some e => (s, some (Except.error e))
  | none =>
  match s.wasmCache with
  | some id =>
      let p := xxhashSeedAndCalc
        { s with seedBuffer := writeSeed seedLow seedHigh } id data
      (p.1, some p.2)
  | none =>
    match s.cell with
    | CellState.empty =>
        ({ s with
           cell := CellState.loading [{ data := data, seedLow := seedLow, seedHigh := seedHigh }],
           loaderCalls := s.loaderCalls + 1 }, none)
    | CellState.loading ws =>
        ({ s with
           cell := CellState.loading
             (ws ++ [{ data := data, seedLow := seedLow, seedHigh := seedHigh }]) }, none)
    | CellState.ready id =>
        let p := xxhashResume s id { data := data, seedLow := seedLow, seedHigh := seedHigh }
        (p.1, some p.2)

/-- Completion of the single in-flight xxhash64 load. -/
def xxhash64Complete (s : FacadeState XXReq) :
    FacadeState XXReq × List (Nat × Except HashError String) :=
  match s.cell with
  | CellState.loading ws =>
      let id := s.modules.length
      let s2 := { s with
        modules := s.modules ++ [createModule xxhash64Json 8],
        cell := CellState.ready id }
      resolveWaiters xxhashResume id ws s2
  | _ => (s, [])

/-- N interleaved first-use crc32 calls, all issued before the load
completes: the fold of their synchronous prefixes from the fresh
module-level state. -/
def crc32StartAll (datas : List (List Nat)) : FacadeState (List Nat) :=
  datas.foldl (fun t d => (crc32Start t d).1) freshFacade

/-- N interleaved first-use sha224 calls issued before the load completes. -/
def sha224StartAll (datas : List (List Nat)) : FacadeState (List Nat) :=
  datas.foldl (fun t d => (sha224Start t d).1) freshFacade

/-- N interleaved first-use xxhash64 calls issued before the load
completes. -/
def xxhash64StartAll (reqs : List XXReq) : FacadeState XXReq :=
  reqs.foldl (fun t r => (xxhash64Start t r.data (some r.seedLow) (some r.seedHigh)).1)
    freshFacade

/-!
Helper lemmas shared by the claim theorems.
-/

/-- validateSeed returns either no error or the fixed validation error. -/
theorem validateSeed_cases (q : Rat) :
    validateSeed q = none ∨
    validateSeed q = some (HashError.validationError seedErrMsg) := by
  unfold validateSeed
  split
  · exact Or.inr rfl
  · exact Or.inl rfl

/-- A seed component outside its domain is flagged by validateSeed. -/
theorem validateSeed_invalid (q : Rat)
    (h : q.den ≠ 1 ∨ q.num < 0 ∨ q.num > 4294967295) :
    validateSeed q = some (HashError.validationError seedErrMsg) := by
  unfold validateSeed
  rw [if_pos h]

/-- The little-endian seed encoding is 8 bytes long. -/
theorem writeSeed_length (low high : Rat) : (writeSeed low high).length = 8 := rfl

/-- writeMemory succeeds when the bytes fit in the linear memory and
overwrites exactly the prefix of that memory. -/
theorem writeMemory_ok (m : ComputeModule) (bytes : List Nat)
    (h : bytes.length ≤ m.memory.length) :
    m.writeMemory bytes
      = Except.ok { m with memory := bytes ++ m.memory.drop bytes.length } := by
  unfold ComputeModule.writeMemory
  rw [if_pos h]

/-- facadeCachedCalc touches only the heap entry it computes against: the
cache reference, the cell, the loader counter, the seed buffer and the
heap size are all preserved. -/
theorem facadeCachedCalc_frame {ρ : Type} (s : FacadeState ρ) (id : Nat)
    (data : List Nat) (variant : Option Nat) :
    (facadeCachedCalc s id data variant).1.wasmCache = s.wasmCache ∧
    (facadeCachedCalc s id data variant).1.cell = s.cell ∧
    (facadeCachedCalc s id data variant).1.loaderCalls = s.loaderCalls ∧
    (facadeCachedCalc s id data variant).1.seedBuffer = s.seedBuffer ∧
    (facadeCachedCalc s id data variant).1.modules.length = s.modules.length := by
  unfold facadeCachedCalc
  cases h : s.modules.get? id with
  | none => simp
  | some m => simp

/-- xxhashSeedAndCalc touches only the heap entry it computes against. -/
theorem xxhashSeedAndCalc_frame {ρ : Type} (s : FacadeState ρ) (id : Nat)
    (data : List Nat) :
    (xxhashSeedAndCalc s id data).1.wasmCache = s.wasmCache ∧
    (xxhashSeedAndCalc s id data).1.cell = s.cell ∧
    (xxhashSeedAndCalc s id data).1.loaderCalls = s.loaderCalls ∧
    (xxhashSeedAndCalc s id data).1.seedBuffer = s.seedBuffer ∧
    (xxhashSeedAndCalc s id data).1.modules.length = s.modules.length := by
  unfold xxhashSeedAndCalc
  cases h : s.modules.get? id with
  | none => simp
  | some m =>
      cases hw : m.writeMemory s.seedBuffer with
      | error e => simp [hw]
      | ok m2 => simp [hw]

/-!
Claim theorems.
-/

/-- Claim C8: the blockSize and digestSize reported by every Hasher match
the algorithm specification: CRC-32 reports 4 and 4 bytes, SHA-224
reports 64 and 28 bytes, and 64-bit xxHash reports 32 and 8 bytes. -/
theorem claim8_block_digest_sizes :
    (∀ s : FacadeState (List Nat),
       (createCRC32Run s).2.blockSize = 4 ∧ (createCRC32Run s).2.digestSize = 4) ∧
    (∀ s : FacadeState (List Nat),
       (createSHA224Run s).2.blockSize = 64 ∧ (createSHA224Run s).2.digestSize = 28) ∧
    (∀ s : FacadeState XXReq,
       Except.map (fun p => (p.2.blockSize, p.2.digestSize)) (createXXHash64Run s none none)
         = Except.ok (32, 8)) :=
  ⟨fun _ => ⟨rfl, rfl⟩, fun _ => ⟨rfl, rfl⟩, fun _ => rfl⟩

/-- Claim C9: calling xxhash64 or createXXHash64 with the seed parameters
omitted behaves identically to passing seed (0, 0) explicitly, for every
facade state and every input: the source default parameters seedLow = 0
and seedHigh = 0 make the two calls the same computation. -/
theorem claim9_default_seed :
    (∀ (s : FacadeState XXReq) (data : List Nat),
       xxhash64Run s data none none = xxhash64Run s data (some 0) (some 0)) ∧
    (∀ s : FacadeState XXReq,
       createXXHash64Run s none none = createXXHash64Run s (some 0) (some 0)) :=
  ⟨fun _ _ => rfl, fun _ => rfl⟩

/-- Claim C1, counterexample: the Hasher object built by createSHA224
exposes no save and no load operation, so the claim that every
createHasher facade provides save() and load() fails for SHA-224. -/
theorem claim1_counterexample :
    (createSHA224Run (freshFacade : FacadeState (List Nat))).2.saveFn = none ∧
    (createSHA224Run (freshFacade : FacadeState (List Nat))).2.loadFn = none :=
  ⟨rfl, rfl⟩

/-- Claim C1, amended: the Hashers returned by createCRC32 and
createXXHash64 provide save() and load(); both are total operations
(callable in any state), save copies the internal state region out
without mutating anything, load replaces only the internal state region
bytes, leaving memory, descriptor and hash length unchanged, and under
the spec state machine neither changes the logical state label.  The
Hasher returned by createSHA224 provides neither save nor load. -/
theorem claim1_amended_save_load :
    (∀ s : FacadeState (List Nat),
       (createCRC32Run s).2.saveFn = some ComputeModule.save ∧
       (createCRC32Run s).2.loadFn = some ComputeModule.load) ∧
    (∀ s : FacadeState (List Nat),
       (createSHA224Run s).2.saveFn = none ∧
       (createSHA224Run s).2.loadFn = none) ∧
    (∀ (s : FacadeState XXReq) (lo hi : Option Rat),
       validateSeed (lo.getD 0) = none → validateSeed (hi.getD 0) = none →
       ∃ p, createXXHash64Run s lo hi = Except.ok p ∧
         p.2.saveFn = some ComputeModule.save ∧
         p.2.loadFn = some ComputeModule.load) ∧
    (∀ (m : ComputeModule) (blob : List Nat),
       ComputeModule.save m = m.st ∧
       (ComputeModule.load m blob).st = blob ∧
       (ComputeModule.load m blob).memory = m.memory ∧
       (ComputeModule.load m blob).desc = m.desc ∧
       (ComputeModule.load m blob).hashLength = m.hashLength) ∧
    (∀ l : HLabel, labelStep l HOp.saveOp = l ∧ labelStep l HOp.loadOp = l) := by
  refine ⟨fun s => ⟨rfl, rfl⟩, fun s => ⟨rfl, rfl⟩, ?_, fun m blob => ⟨rfl, rfl, rfl, rfl, rfl⟩,
    fun l => ⟨rfl, rfl⟩⟩
  intro s lo hi hlo hhi
  simp only [createXXHash64Run, hlo, hhi]
  rw [writeMemory_ok _ _ (by simp [writeSeed_length, createModule, xxhash64Json])]
  exact ⟨_, rfl, rfl, rfl⟩

/-- Claim C1, witness for the amended theorem at concrete inputs. -/
theorem claim1_witness :
    ((createCRC32Run (freshFacade : FacadeState (List Nat))).2.saveFn
        = some ComputeModule.save) ∧
    (∃ p, createXXHash64Run (freshFacade : FacadeState XXReq) (some 1) (some 2)
        = Except.ok p ∧
      p.2.saveFn = some ComputeModule.save ∧
      p.2.loadFn = some ComputeModule.load) :=
  ⟨(claim1_amended_save_load.1 freshFacade).1,
   claim1_amended_save_load.2.2.1 freshFacade (some 1) (some 2) (by decide) (by decide)⟩

/-- Claim C2, counterexample: two distinct seeded one-shot xxhash64 calls
both encode their seed into the same module-level seedBuffer field, the
second overwriting the encoding left by the first, so a single
module-level buffer is reused for seed encoding across distinct seeded
calculate calls. -/
theorem claim2_counterexample :
    (xxhash64Run freshFacade [1] (some 1) (some 0)).1.seedBuffer = writeSeed 1 0 ∧
    (xxhash64Run (xxhash64Run freshFacade [1] (some 1) (some 0)).1
        [2] (some 2) (some 0)).1.seedBuffer = writeSeed 2 0 ∧
    writeSeed 1 0 ≠ writeSeed 2 0 :=
  ⟨rfl, rfl, by decide⟩

/-- Claim C2, amended: every seeded one-shot xxhash64 call with valid
seeds overwrites the single module-level seedBuffer with the encoding of
its own seed pair before writing it into the shared backend memory, so
the buffer is reused across distinct seeded calls; only createXXHash64
encodes its seed into a buffer owned by the specific Compute Module
instance being configured, leaving the module-level buffer untouched. -/
theorem claim2_amended_shared_seed_buffer :
    (∀ (s : FacadeState XXReq) (data : List Nat) (lo hi : Option Rat),
       validateSeed (lo.getD 0) = none → validateSeed (hi.getD 0) = none →
       (xxhash64Run s data lo hi).1.seedBuffer
         = writeSeed (lo.getD 0) (hi.getD 0)) ∧
    (∀ (s : FacadeState XXReq) (lo hi : Option Rat),
       validateSeed (lo.getD 0) = none → validateSeed (hi.getD 0) = none →
       ∃ p, createXXHash64Run s lo hi = Except.ok p ∧
         p.1.seedBuffer = s.seedBuffer) := by
  constructor
  · intro s data lo hi hlo hhi
    simp only [xxhash64Run, hlo, hhi]
    cases hc : s.wasmCache with
    | none =>
        simp only
        exact (xxhashSeedAndCalc_frame _ _ _).2.2.2.1
    | some id =>
        simp only
        exact (xxhashSeedAndCalc_frame _ _ _).2.2.2.1
  · intro s lo hi hlo hhi
    simp only [createXXHash64Run, hlo, hhi]
    rw [writeMemory_ok _ _ (by simp [writeSeed_length, createModule, xxhash64Json])]
    exact ⟨_, rfl, rfl⟩

/-- Claim C2, witness for the amended theorem at concrete inputs. -/
theorem claim2_witness :
    (xxhash64Run freshFacade [3] (some 7) (some 0)).1.seedBuffer = writeSeed 7 0 ∧
    (∃ p, createXXHash64Run (freshFacade : FacadeState XXReq) (some 7) (some 0)
        = Except.ok p ∧
      p.1.seedBuffer = (freshFacade : FacadeState XXReq).seedBuffer) :=
  ⟨claim2_amended_shared_seed_buffer.1 freshFacade [3] (some 7) (some 0)
      (by decide) (by decide),
   claim2_amended_shared_seed_buffer.2 freshFacade (some 7) (some 0)
      (by decide) (by decide)⟩

/-- Claim C3: a seed component that is not an integer or lies outside the
unsigned 32-bit range makes both xxhash64 and createXXHash64 reject with
the validation error before any backend module is created, written to, or
invoked: the one-shot call returns the unchanged facade state together
with the rejection, and createXXHash64 rejects without producing any
state. -/
theorem claim3_seed_validation
    (s : FacadeState XXReq) (data : List Nat)
    (seedLowArg seedHighArg : Option Rat)
    (h : (seedLowArg.getD 0).den ≠ 1 ∨ (seedLowArg.getD 0).num < 0 ∨
         (seedLowArg.getD 0).num > 4294967295 ∨ (seedHighArg.getD 0).den ≠ 1 ∨
         (seedHighArg.getD 0).num < 0 ∨ (seedHighArg.getD 0).num > 4294967295) :
    xxhash64Run s data seedLowArg seedHighArg
      = (s, Except.error (HashError.validationError seedErrMsg)) ∧
    createXXHash64Run s seedLowArg seedHighArg
      = Except.error (HashError.validationError seedErrMsg) := by
  have key : validateSeed (seedLowArg.getD 0)
        = some (HashError.validationError seedErrMsg) ∨
      validateSeed (seedHighArg.getD 0)
        = some (HashError.validationError seedErrMsg) := by
    rcases h with h | h | h | h | h | h
    · exact Or.inl (validateSeed_invalid _ (Or.inl h))
    · exact Or.inl (validateSeed_invalid _ (Or.inr (Or.inl h)))
    · exact Or.inl (validateSeed_invalid _ (Or.inr (Or.inr h)))
    · exact Or.inr (validateSeed_invalid _ (Or.inl h))
    · exact Or.inr (validateSeed_invalid _ (Or.inr (Or.inl h)))
    · exact Or.inr (validateSeed_invalid _ (Or.inr (Or.inr h)))
  rcases key with hk | hk
  · exact ⟨by simp only [xxhash64Run, hk], by simp only [createXXHash64Run, hk]⟩
  · rcases validateSeed_cases (seedLowArg.getD 0) with hlo | hlo
    · exact ⟨by simp only [xxhash64Run, hlo, hk], by simp only [createXXHash64Run, hlo, hk]⟩
    · exact ⟨by simp only [xxhash64Run, hlo], by simp only [createXXHash64Run, hlo]⟩

/-- Claim C3, witness: seed 2 to the power 32 is rejected by both entry
points with the facade state untouched. -/
theorem claim3_witness :
    xxhash64Run freshFacade [1] (some 4294967296) none
      = ((freshFacade : FacadeState XXReq),
         Except.error (HashError.validationError seedErrMsg)) ∧
    createXXHash64Run freshFacade (some 4294967296) none
      = Except.error (HashError.validationError seedErrMsg) :=
  claim3_seed_validation freshFacade [1] (some 4294967296) none
    (Or.inr (Or.inr (Or.inl (by decide))))

/-- A concrete facade state whose cache is already populated with a crc32
module: used by several witnesses below. -/
def cachedCrcState : FacadeState (List Nat) :=
  { modules := [createModule crc32Json 4], wasmCache := some 0,
    cell := CellState.ready 0, loaderCalls := 1,
    seedBuffer := List.replicate 8 0 }

/-- A concrete facade state whose cache is already populated with a sha256
module. -/
def cachedShaState : FacadeState (List Nat) :=
  { modules := [createModule sha256Json 28], wasmCache := some 0,
    cell := CellState.ready 0, loaderCalls := 1,
    seedBuffer := List.replicate 8 0 }

/-- A concrete facade state whose cache is already populated with an
xxhash64 module. -/
def cachedXXState : FacadeState XXReq :=
  { modules := [createModule xxhash64Json 8], wasmCache := some 0,
    cell := CellState.ready 0, loaderCalls := 1,
    seedBuffer := List.replicate 8 0 }

/-- Claim C5, counterexample: a first-use crc32 call that fails with a
ComputeError after its load succeeded does not leave the cached Compute
Module reference unchanged: the cache goes from null to the freshly
loaded module, and the failure is not the LoadError case. -/
theorem claim5_counterexample :
    (crc32Run freshFacade (List.replicate 33 0)).2
      = Except.error HashError.computeError ∧
    HashError.computeError ≠ HashError.loadError ∧
    (freshFacade : FacadeState (List Nat)).wasmCache = none ∧
    (crc32Run freshFacade (List.replicate 33 0)).1.wasmCache
      ≠ (freshFacade : FacadeState (List Nat)).wasmCache :=
  ⟨rfl, by decide, rfl, by decide⟩

/-- Claim C5, amended: every error raised during a one-shot calculate call
surfaces to the immediate caller as the rejected asynchronous result; a
failing call made while the shared Compute Module is already cached
leaves the cached reference, the cell and the loader counter unchanged;
a first-use call that fails after a successful load leaves the cache
populated with the freshly loaded module (the LoadError policy being
fixed separately). -/
theorem claim5_amended_error_propagation :
    (∀ (s : FacadeState (List Nat)) (id : Nat) (data : List Nat) (e : HashError),
       s.wasmCache = some id → (crc32Run s data).2 = Except.error e →
       (crc32Run s data).1.wasmCache = some id ∧
       (crc32Run s data).1.cell = s.cell ∧
       (crc32Run s data).1.loaderCalls = s.loaderCalls) ∧
    (∀ (s : FacadeState (List Nat)) (id : Nat) (data : List Nat) (e : HashError),
       s.wasmCache = some id → (sha224Run s data).2 = Except.error e →
       (sha224Run s data).1.wasmCache = some id ∧
       (sha224Run s data).1.cell = s.cell ∧
       (sha224Run s data).1.loaderCalls = s.loaderCalls) ∧
    (∀ (s : FacadeState XXReq) (id : Nat) (data : List Nat)
        (lo hi : Option Rat) (e : HashError),
       s.wasmCache = some id →
       validateSeed (lo.getD 0) = none → validateSeed (hi.getD 0) = none →
       (xxhash64Run s data lo hi).2 = Except.error e →
       (xxhash64Run s data lo hi).1.wasmCache = some id ∧
       (xxhash64Run s data lo hi).1.cell = s.cell ∧
       (xxhash64Run s data lo hi).1.loaderCalls = s.loaderCalls) ∧
    (∀ (s : FacadeState (List Nat)) (data : List Nat) (e : HashError),
       s.wasmCache = none → (crc32Run s data).2 = Except.error e →
       (crc32Run s data).1.wasmCache = some s.modules.length) ∧
    (∀ (s : FacadeState (List Nat)) (data : List Nat) (e : HashError),
       s.wasmCache = none → (sha224Run s data).2 = Except.error e →
       (sha224Run s data).1.wasmCache = some s.modules.length) ∧
    (∀ (s : FacadeState XXReq) (data : List Nat) (lo hi : Option Rat) (e : HashError),
       s.wasmCache = none →
       validateSeed (lo.getD 0) = none → validateSeed (hi.getD 0) = none →
       (xxhash64Run s data lo hi).2 = Except.error e →
       (xxhash64Run s data lo hi).1.wasmCache = some s.modules.length) := by
  refine ⟨?_, ?_, ?_, ?_, ?_, ?_⟩
  · intro s id data e hc _he
    have heq : crc32Run s data = facadeCachedCalc s id data none := by
      simp only [crc32Run, hc]
    rw [heq]
    have hf := facadeCachedCalc_frame s id data none
    exact ⟨hf.1.trans hc, hf.2.1, hf.2.2.1⟩
  · intro s id data e hc _he
    have heq : sha224Run s data = facadeCachedCalc s id data (some 224) := by
      simp only [sha224Run, hc]
    rw [heq]
    have hf := facadeCachedCalc_frame s id data (some 224)
    exact ⟨hf.1.trans hc, hf.2.1, hf.2.2.1⟩
  · intro s id data lo hi e hc hlo hhi _he
    have heq : xxhash64Run s data lo hi
        = xxhashSeedAndCalc
            { s with seedBuffer := writeSeed (lo.getD 0) (hi.getD 0) } id data := by
      simp only [xxhash64Run, hlo, hhi, hc]
    rw [heq]
    have hf := xxhashSeedAndCalc_frame
      { s with seedBuffer := writeSeed (lo.getD 0) (hi.getD 0) } id data
    exact ⟨hf.1.trans hc, hf.2.1, hf.2.2.1⟩
  · intro s data e hc _he
    have heq : crc32Run s data = facadeCachedCalc
        { s with
          modules := s.modules ++ [createModule crc32Json 4],
          cell := CellState.ready s.modules.length,
          loaderCalls := s.loaderCalls + 1,
          wasmCache := some s.modules.length } s.modules.length data none := by
      simp only [crc32Run, hc]
    rw [heq]
    exact (facadeCachedCalc_frame _ _ _ _).1
  · intro s data e hc _he
    have heq : sha224Run s data = facadeCachedCalc
        { s with
          modules := s.modules ++ [createModule sha256Json 28],
          cell := CellState.ready s.modules.length,
          loaderCalls := s.loaderCalls + 1,
          wasmCache := some s.modules.length } s.modules.length data (some 224) := by
      simp only [sha224Run, hc]
    rw [heq]
    exact (facadeCachedCalc_frame _ _ _ _).1
  · intro s data lo hi e hc hlo hhi _he
    have heq : xxhash64Run s data lo hi = xxhashSeedAndCalc
        { s with
          modules := s.modules ++ [createModule xxhash64Json 8],
          cell := CellState.ready s.modules.length,
          loaderCalls := s.loaderCalls + 1,
          wasmCache := some s.modules.length,
          seedBuffer := writeSeed (lo.getD 0) (hi.getD 0) } s.modules.length data := by
      simp only [xxhash64Run, hlo, hhi, hc]
    rw [heq]
    exact (xxhashSeedAndCalc_frame _ _ _).1

/-- Claim C5, witness: concrete failing calls, one per conjunct, on a
33-byte input that overflows the 32-byte backend memory. -/
theorem claim5_witness :
    ((crc32Run cachedCrcState (List.replicate 33 0)).1.wasmCache = some 0 ∧
     (crc32Run cachedCrcState (List.replicate 33 0)).1.cell = cachedCrcState.cell ∧
     (crc32Run cachedCrcState (List.replicate 33 0)).1.loaderCalls
       = cachedCrcState.loaderCalls) ∧
    ((sha224Run cachedShaState (List.replicate 33 0)).1.wasmCache = some 0) ∧
    ((xxhash64Run cachedXXState (List.replicate 33 0) (some 1) (some 2)).1.wasmCache
       = some 0) ∧
    ((crc32Run freshFacade (List.replicate 33 0)).1.wasmCache
       = some (freshFacade : FacadeState (List Nat)).modules.length) ∧
    ((sha224Run freshFacade (List.replicate 33 0)).1.wasmCache
       = some (freshFacade : FacadeState (List Nat)).modules.length) ∧
    ((xxhash64Run freshFacade (List.replicate 33 0) (some 1) (some 2)).1.wasmCache
       = some (freshFacade : FacadeState XXReq).modules.length) :=
  ⟨claim5_amended_error_propagation.1 cachedCrcState 0 (List.replicate 33 0)
      HashError.computeError rfl rfl,
   (claim5_amended_error_propagation.2.1 cachedShaState 0 (List.replicate 33 0)
      HashError.computeError rfl rfl).1,
   (claim5_amended_error_propagation.2.2.1 cachedXXState 0 (List.replicate 33 0)
      (some 1) (some 2) HashError.computeError rfl (by decide) (by decide) rfl).1,
   claim5_amended_error_propagation.2.2.2.1 freshFacade (List.replicate 33 0)
      HashError.computeError rfl rfl,
   claim5_amended_error_propagation.2.2.2.2.1 freshFacade (List.replicate 33 0)
      HashError.computeError rfl rfl,
   claim5_amended_error_propagation.2.2.2.2.2 freshFacade (List.replicate 33 0)
      (some 1) (some 2) HashError.computeError rfl (by decide) (by decide) rfl⟩

/-- Claim C6: a one-shot call made while the shared Compute Module is
cached reuses that module: it is exactly the cached-calculate composite
against the cached id, it does not invoke the Module Loader and it
allocates no module; the loader is invoked (once) exactly on a cache
miss. -/
theorem claim6_cache_reuse :
    (∀ (s : FacadeState (List Nat)) (id : Nat) (data : List Nat),
       s.wasmCache = some id →
       crc32Run s data = facadeCachedCalc s id data none ∧
       (crc32Run s data).1.loaderCalls = s.loaderCalls ∧
       (crc32Run s data).1.modules.length = s.modules.length) ∧
    (∀ (s : FacadeState (List Nat)) (id : Nat) (data : List Nat),
       s.wasmCache = some id →
       sha224Run s data = facadeCachedCalc s id data (some 224) ∧
       (sha224Run s data).1.loaderCalls = s.loaderCalls ∧
       (sha224Run s data).1.modules.length = s.modules.length) ∧
    (∀ (s : FacadeState XXReq) (id : Nat) (data : List Nat) (lo hi : Option Rat),
       s.wasmCache = some id →
       validateSeed (lo.getD 0) = none → validateSeed (hi.getD 0) = none →
       xxhash64Run s data lo hi
         = xxhashSeedAndCalc
             { s with seedBuffer := writeSeed (lo.getD 0) (hi.getD 0) } id data ∧
       (xxhash64Run s data lo hi).1.loaderCalls = s.loaderCalls ∧
       (xxhash64Run s data lo hi).1.modules.length = s.modules.length) ∧
    (∀ (s : FacadeState (List Nat)) (data : List Nat),
       s.wasmCache = none →
       (crc32Run s data).1.loaderCalls = s.loaderCalls + 1) ∧
    (∀ (s : FacadeState (List Nat)) (data : List Nat),
       s.wasmCache = none →
       (sha224Run s data).1.loaderCalls = s.loaderCalls + 1) ∧
    (∀ (s : FacadeState XXReq) (data : List Nat) (lo hi : Option Rat),
       s.wasmCache = none →
       validateSeed (lo.getD 0) = none → validateSeed (hi.getD 0) = none →
       (xxhash64Run s data lo hi).1.loaderCalls = s.loaderCalls + 1) := by
  refine ⟨?_, ?_, ?_, ?_, ?_, ?_⟩
  · intro s id data hc
    have heq : crc32Run s data = facadeCachedCalc s id data none := by
      simp only [crc32Run, hc]
    have hf := facadeCachedCalc_frame s id data none
    exact ⟨heq, by rw [heq]; exact hf.2.2.1, by rw [heq]; exact hf.2.2.2.2⟩
  · intro s id data hc
    have heq : sha224Run s data = facadeCachedCalc s id data (some 224) := by
      simp only [sha224Run, hc]
    have hf := facadeCachedCalc_frame s id data (some 224)
    exact ⟨heq, by rw [heq]; exact hf.2.2.1, by rw [heq]; exact hf.2.2.2.2⟩
  · intro s id data lo hi hc hlo hhi
    have heq : xxhash64Run s data lo hi
        = xxhashSeedAndCalc
            { s with seedBuffer := writeSeed (lo.getD 0) (hi.getD 0) } id data := by
      simp only [xxhash64Run, hlo, hhi, hc]
    have hf := xxhashSeedAndCalc_frame
      { s with seedBuffer := writeSeed (lo.getD 0) (hi.getD 0) } id data
    exact ⟨heq, by rw [heq]; exact hf.2.2.1, by rw [heq]; exact hf.2.2.2.2⟩
  · intro s data hc
    have heq : crc32Run s data = facadeCachedCalc
        { s with
          modules := s.modules ++ [createModule crc32Json 4],
          cell := CellState.ready s.modules.length,
          loaderCalls := s.loaderCalls + 1,
          wasmCache := some s.modules.length } s.modules.length data none := by
      simp only [crc32Run, hc]
    rw [heq]
    exact (facadeCachedCalc_frame _ _ _ _).2.2.1
  · intro s data hc
    have heq : sha224Run s data = facadeCachedCalc
        { s with
          modules := s.modules ++ [createModule sha256Json 28],
          cell := CellState.ready s.modules.length,
          loaderCalls := s.loaderCalls + 1,
          wasmCache := some s.modules.length } s.modules.length data (some 224) := by
      simp only [sha224Run, hc]
    rw [heq]
    exact (facadeCachedCalc_frame _ _ _ _).2.2.1
  · intro s data lo hi hc hlo hhi
    have heq : xxhash64Run s data lo hi = xxhashSeedAndCalc
        { s with
          modules := s.modules ++ [createModule xxhash64Json 8],
          cell := CellState.ready s.modules.length,
          loaderCalls := s.loaderCalls + 1,
          wasmCache := some s.modules.length,
          seedBuffer := writeSeed (lo.getD 0) (hi.getD 0) } s.modules.length data := by
      simp only [xxhash64Run, hlo, hhi, hc]
    rw [heq]
    exact (xxhashSeedAndCalc_frame _ _ _).2.2.1

/-- Claim C6, witness: a call on a populated cache does not touch the
loader, a call on an empty cache invokes it once. -/
theorem claim6_witness :
    ((crc32Run cachedCrcState [1]).1.loaderCalls = cachedCrcState.loaderCalls) ∧
    ((sha224Run cachedShaState [1]).1.loaderCalls = cachedShaState.loaderCalls) ∧
    ((xxhash64Run cachedXXState [1] (some 1) (some 2)).1.loaderCalls
       = cachedXXState.loaderCalls) ∧
    ((crc32Run freshFacade [1]).1.loaderCalls
       = (freshFacade : FacadeState (List Nat)).loaderCalls + 1) ∧
    ((xxhash64Run freshFacade [1] (some 1) (some 2)).1.loaderCalls
       = (freshFacade : FacadeState XXReq).loaderCalls + 1) :=
  ⟨(claim6_cache_reuse.1 cachedCrcState 0 [1] rfl).2.1,
   (claim6_cache_reuse.2.1 cachedShaState 0 [1] rfl).2.1,
   (claim6_cache_reuse.2.2.1 cachedXXState 0 [1] (some 1) (some 2) rfl
      (by decide) (by decide)).2.1,
   claim6_cache_reuse.2.2.2.1 freshFacade [1] rfl,
   claim6_cache_reuse.2.2.2.2.2 freshFacade [1] (some 1) (some 2) rfl
      (by decide) (by decide)⟩

/-- Claim C7: every createHasher facade call allocates a fresh private
Compute Module through the Module Loader, bypassing the shared cache: the
returned Hasher owns the next free heap id, the cache reference and the
cell are untouched, the loader counter increments, and the new id differs
from every previously allocated id, in particular from the cached module
and from the module of every previously returned Hasher. -/
theorem claim7_fresh_private_module :
    (∀ s : FacadeState (List Nat),
       (createCRC32Run s).2.moduleId = s.modules.length ∧
       (createCRC32Run s).1.wasmCache = s.wasmCache ∧
       (createCRC32Run s).1.cell = s.cell ∧
       (createCRC32Run s).1.loaderCalls = s.loaderCalls + 1 ∧
       (createCRC32Run s).1.modules.length = s.modules.length + 1 ∧
       (∀ j, j < s.modules.length → (createCRC32Run s).2.moduleId ≠ j)) ∧
    (∀ s : FacadeState (List Nat),
       (createSHA224Run s).2.moduleId = s.modules.length ∧
       (createSHA224Run s).1.wasmCache = s.wasmCache ∧
       (createSHA224Run s).1.cell = s.cell ∧
       (createSHA224Run s).1.loaderCalls = s.loaderCalls + 1 ∧
       (createSHA224Run s).1.modules.length = s.modules.length + 1 ∧
       (∀ j, j < s.modules.length → (createSHA224Run s).2.moduleId ≠ j)) ∧
    (∀ (s : FacadeState XXReq) (lo hi : Option Rat),
       validateSeed (lo.getD 0) = none → validateSeed (hi.getD 0) = none →
       ∃ p, createXXHash64Run s lo hi = Except.ok p ∧
         p.2.moduleId = s.modules.length ∧
         p.1.wasmCache = s.wasmCache ∧
         p.1.cell = s.cell ∧
         p.1.loaderCalls = s.loaderCalls + 1 ∧
         p.1.modules.length = s.modules.length + 1 ∧
         (∀ j, j < s.modules.length → p.2.moduleId ≠ j)) := by
  refine ⟨?_, ?_, ?_⟩
  · intro s
    refine ⟨rfl, rfl, rfl, rfl, by simp [createCRC32Run], ?_⟩
    intro j hj
    have hm : (createCRC32Run s).2.moduleId = s.modules.length := rfl
    omega
  · intro s
    refine ⟨rfl, rfl, rfl, rfl, by simp [createSHA224Run], ?_⟩
    intro j hj
    have hm : (createSHA224Run s).2.moduleId = s.modules.length := rfl
    omega
  · intro s lo hi hlo hhi
    simp only [createXXHash64Run, hlo, hhi]
    rw [writeMemory_ok _ _ (by simp [writeSeed_length, createModule, xxhash64Json])]
    refine ⟨_, rfl, rfl, rfl, rfl, rfl, by simp, ?_⟩
    intro j hj
    simp only
    omega

/-- Claim C7, witness: on a state that already holds a cached module with
id 0, every create facade returns a Hasher whose module id is not 0. -/
theorem claim7_witness :
    (createCRC32Run cachedCrcState).2.moduleId ≠ 0 ∧
    (createCRC32Run cachedCrcState).1.wasmCache = cachedCrcState.wasmCache ∧
    (createSHA224Run cachedShaState).2.moduleId ≠ 0 ∧
    (∃ p, createXXHash64Run cachedXXState (some 5) (some 6) = Except.ok p ∧
      p.2.moduleId = cachedXXState.modules.length ∧
      p.1.wasmCache = cachedXXState.wasmCache ∧
      p.1.cell = cachedXXState.cell ∧
      p.1.loaderCalls = cachedXXState.loaderCalls + 1 ∧
      p.1.modules.length = cachedXXState.modules.length + 1 ∧
      (∀ j, j < cachedXXState.modules.length → p.2.moduleId ≠ j)) :=
  ⟨(claim7_fresh_private_module.1 cachedCrcState).2.2.2.2.2 0 (by decide),
   (claim7_fresh_private_module.1 cachedCrcState).2.1,
   (claim7_fresh_private_module.2.1 cachedShaState).2.2.2.2.2 0 (by decide),
   claim7_fresh_private_module.2.2 cachedXXState (some 5) (some 6)
      (by decide) (by decide)⟩

/-- Claim C10: createXXHash64 encodes the supplied seed pair little-endian
(low word at offset 0, high word at offset 4, the writeSeed layout) into
the memory of its private module before init at creation time, and the
init closure of the returned Hasher rewrites that same instance-owned
encoding into backend memory before running the backend init entry point,
so every reset restores the originally supplied seed in the rebuilt
internal state. -/
theorem claim10_seed_rewrite_on_init
    (s : FacadeState XXReq) (lo hi : Option Rat)
    (hlo : validateSeed (lo.getD 0) = none) (hhi : validateSeed (hi.getD 0) = none) :
    ∃ p, createXXHash64Run s lo hi = Except.ok p ∧
      (∃ m0, p.1.modules.get? p.2.moduleId = some m0 ∧
        m0.memory.take 8 = writeSeed (lo.getD 0) (hi.getD 0) ∧
        m0.st = initState none (writeSeed (lo.getD 0) (hi.getD 0))) ∧
      (∀ m : ComputeModule, 8 ≤ m.memory.length →
        ∃ m2, p.2.initFn m = Except.ok m2 ∧
          m2.memory.take 8 = writeSeed (lo.getD 0) (hi.getD 0) ∧
          m2.st = initState none (writeSeed (lo.getD 0) (hi.getD 0))) := by
  have htake : ∀ rest : List Nat,
      ((writeSeed (lo.getD 0) (hi.getD 0)) ++ rest).take 8
        = writeSeed (lo.getD 0) (hi.getD 0) := by
    intro rest
    conv_lhs => rw [← writeSeed_length (lo.getD 0) (hi.getD 0)]
    exact List.take_left _ _
  have hst : ∀ mm : ComputeModule,
      mm.memory.take 8 = writeSeed (lo.getD 0) (hi.getD 0) →
      (mm.init none).st = initState none (writeSeed (lo.getD 0) (hi.getD 0)) := by
    intro mm hmem
    show initState none (mm.memory.take 8) = _
    rw [hmem]
  simp only [createXXHash64Run, hlo, hhi]
  rw [writeMemory_ok _ _ (by simp [writeSeed_length, createModule, xxhash64Json])]
  refine ⟨_, rfl, ?_, ?_⟩
  · refine ⟨_, List.get?_concat_length _ _, ?_, ?_⟩
    · exact htake _
    · exact hst _ (htake _)
  · intro m hm
    have hwm := writeMemory_ok m (writeSeed (lo.getD 0) (hi.getD 0))
      (by rw [writeSeed_length]; exact hm)
    refine ⟨ComputeModule.init { m with
        memory := writeSeed (lo.getD 0) (hi.getD 0)
          ++ m.memory.drop (writeSeed (lo.getD 0) (hi.getD 0)).length } none,
      ?_, ?_, ?_⟩
    · show (match m.writeMemory (writeSeed (lo.getD 0) (hi.getD 0)) with
        | Except.error e => Except.error e
        | Except.ok m3 => Except.ok (m3.init none)) = _
      rw [hwm]
    · exact htake _
    · exact hst _ (htake _)

/-- Claim C10, witness: concrete seeds 1 and 2 at a fresh facade state. -/
theorem claim10_witness :
    ∃ p, createXXHash64Run freshFacade (some 1) (some 2) = Except.ok p ∧
      (∃ m0, p.1.modules.get? p.2.moduleId = some m0 ∧
        m0.memory.take 8 = writeSeed 1 2 ∧
        m0.st = initState none (writeSeed 1 2)) ∧
      (∀ m : ComputeModule, 8 ≤ m.memory.length →
        ∃ m2, p.2.initFn m = Except.ok m2 ∧
          m2.memory.take 8 = writeSeed 1 2 ∧
          m2.st = initState none (writeSeed 1 2)) :=
  claim10_seed_rewrite_on_init freshFacade (some 1) (some 2) (by decide) (by decide)

/-- Every waiter resolved by resolveWaiters records the id of the single
loaded module it computed against. -/
theorem resolveWaiters_ids {ρ : Type}
    (resume : FacadeState ρ → Nat → ρ → FacadeState ρ × Except HashError String)
    (id : Nat) (ws : List ρ) (s : FacadeState ρ) :
    (resolveWaiters resume id ws s).2.map Prod.fst = List.replicate ws.length id := by
  have key : ∀ (ws : List ρ) (s : FacadeState ρ)
      (acc : List (Nat × Except HashError String)),
      ((ws.foldl (fun a r =>
          let p := resume a.1 id r
          (p.1, a.2 ++ [(id, p.2)])) (s, acc)).2).map Prod.fst
        = acc.map Prod.fst ++ List.replicate ws.length id := by
    intro ws
    induction ws with
    | nil => intro s acc; simp
    | cons r rs ih =>
        intro s acc
        simp only [List.foldl_cons]
        rw [ih]
        simp [List.replicate_succ]
  simpa [resolveWaiters] using key ws s []

/-- Resolving waiters never calls the Module Loader when the resumption
itself does not. -/
theorem resolveWaiters_loaderCalls {ρ : Type}
    (resume : FacadeState ρ → Nat → ρ → FacadeState ρ × Except HashError String)
    (hres : ∀ (s : FacadeState ρ) (id : Nat) (r : ρ),
      (resume s id r).1.loaderCalls = s.loaderCalls)
    (id : Nat) (ws : List ρ) (s : FacadeState ρ) :
    (resolveWaiters resume id ws s).1.loaderCalls = s.loaderCalls := by
  have key : ∀ (ws : List ρ) (s : FacadeState ρ)
      (acc : List (Nat × Except HashError String)),
      ((ws.foldl (fun a r =>
          let p := resume a.1 id r
          (p.1, a.2 ++ [(id, p.2)])) (s, acc)).1).loaderCalls
        = s.loaderCalls := by
    intro ws
    induction ws with
    | nil => intro s acc; rfl
    | cons r rs ih =>
        intro s acc
        simp only [List.foldl_cons]
        rw [ih]
        exact hres s id r
  exact key ws s []

/-- While a load is in flight, further first-use crc32 calls only queue
behind it: no cache change, no heap change, no further loader call. -/
theorem crc32Start_queue (datas : List (List Nat)) :
    ∀ (s : FacadeState (List Nat)) (ws : List (List Nat)),
      s.wasmCache = none → s.cell = CellState.loading ws →
      datas.foldl (fun t d => (crc32Start t d).1) s
        = { s with cell := CellState.loading (ws ++ datas) } := by
  induction datas with
  | nil =>
      intro s ws hcache hcell
      simp only [List.foldl_nil, List.append_nil]
      rw [← hcell]
  | cons d ds ih =>
      intro s ws hcache hcell
      have hstep : (crc32Start s d).1
          = { s with cell := CellState.loading (ws ++ [d]) } := by
        simp only [crc32Start, hcache, hcell]
      rw [List.foldl_cons, hstep,
        ih { s with cell := CellState.loading (ws ++ [d]) } (ws ++ [d]) hcache rfl]
      simp

/-- While a load is in flight, further first-use sha224 calls only queue
behind it. -/
theorem sha224Start_queue (datas : List (List Nat)) :
    ∀ (s : FacadeState (List Nat)) (ws : List (List Nat)),
      s.wasmCache = none → s.cell = CellState.loading ws →
      datas.foldl (fun t d => (sha224Start t d).1) s
        = { s with cell := CellState.loading (ws ++ datas) } := by
  induction datas with
  | nil =>
      intro s ws hcache hcell
      simp only [List.foldl_nil, List.append_nil]
      rw [← hcell]
  | cons d ds ih =>
      intro s ws hcache hcell
      have hstep : (sha224Start s d).1
          = { s with cell := CellState.loading (ws ++ [d]) } := by
        simp only [sha224Start, hcache, hcell]
      rw [List.foldl_cons, hstep,
        ih { s with cell := CellState.loading (ws ++ [d]) } (ws ++ [d]) hcache rfl]
      simp

/-- While a load is in flight, further first-use xxhash64 calls with valid
seeds only queue behind it. -/
theorem xxhash64Start_queue (reqs : List XXReq) :
    ∀ (s : FacadeState XXReq) (ws : List XXReq),
      (∀ r ∈ reqs, validateSeed r.seedLow = none ∧ validateSeed r.seedHigh = none) →
      s.wasmCache = none → s.cell = CellState.loading ws →
      reqs.foldl (fun t r => (xxhash64Start t r.data (some r.seedLow) (some r.seedHigh)).1) s
        = { s with cell := CellState.loading (ws ++ reqs) } := by
  induction reqs with
  | nil =>
      intro s ws _hv hcache hcell
      simp only [List.foldl_nil, List.append_nil]
      rw [← hcell]
  | cons q qs ih =>
      intro s ws hv hcache hcell
      have hq := hv q (List.mem_cons_self q qs)
      have hstep : (xxhash64Start s q.data (some q.seedLow) (some q.seedHigh)).1
          = { s with cell := CellState.loading (ws ++ [q]) } := by
        simp only [xxhash64Start, Option.getD_some, hq.1, hq.2, hcache, hcell]
      rw [List.foldl_cons, hstep,
        ih { s with cell := CellState.loading (ws ++ [q]) } (ws ++ [q])
          (fun r hr => hv r (List.mem_cons_of_mem q hr)) hcache rfl]
      simp

/-- Claim C4: for every nonempty batch of concurrent first-use one-shot
calls to the same algorithm facade (crc32, sha224, xxhash64 with valid
seeds), issued while the first load is still in flight, the Module Loader
is invoked exactly once, completion does not invoke it again, and every
caller is resolved against the module produced by that single load
(module id 0 of the fresh heap). -/
theorem claim4_single_flight :
    (∀ datas : List (List Nat), datas ≠ [] →
       (crc32StartAll datas).loaderCalls = 1 ∧
       (crc32Complete (crc32StartAll datas)).1.loaderCalls = 1 ∧
       (crc32Complete (crc32StartAll datas)).2.map Prod.fst
         = List.replicate datas.length 0) ∧
    (∀ datas : List (List Nat), datas ≠ [] →
       (sha224StartAll datas).loaderCalls = 1 ∧
       (sha224Complete (sha224StartAll datas)).1.loaderCalls = 1 ∧
       (sha224Complete (sha224StartAll datas)).2.map Prod.fst
         = List.replicate datas.length 0) ∧
    (∀ reqs : List XXReq, reqs ≠ [] →
       (∀ r ∈ reqs, validateSeed r.seedLow = none ∧ validateSeed r.seedHigh = none) →
       (xxhash64StartAll reqs).loaderCalls = 1 ∧
       (xxhash64Complete (xxhash64StartAll reqs)).1.loaderCalls = 1 ∧
       (xxhash64Complete (xxhash64StartAll reqs)).2.map Prod.fst
         = List.replicate reqs.length 0) := by
  refine ⟨?_, ?_, ?_⟩
  · intro datas hne
    cases datas with
    | nil => exact absurd rfl hne
    | cons d ds =>
        have hall : crc32StartAll (d :: ds)
            = { (freshFacade : FacadeState (List Nat)) with
                cell := CellState.loading ([d] ++ ds), loaderCalls := 1 } := by
          show (d :: ds).foldl (fun t x => (crc32Start t x).1) freshFacade = _
          rw [List.foldl_cons]
          exact crc32Start_queue ds _ [d] rfl rfl
        refine ⟨by rw [hall], ?_, ?_⟩
        · rw [hall]
          exact resolveWaiters_loaderCalls crc32Resume
            (fun s id r => (facadeCachedCalc_frame _ _ _ _).2.2.1) 0 ([d] ++ ds) _
        · rw [hall]
          exact resolveWaiters_ids crc32Resume 0 ([d] ++ ds) _
  · intro datas hne
    cases datas with
    | nil => exact absurd rfl hne
    | cons d ds =>
        have hall : sha224StartAll (d :: ds)
            = { (freshFacade : FacadeState (List Nat)) with
                cell := CellState.loading ([d] ++ ds), loaderCalls := 1 } := by
          show (d :: ds).foldl (fun t x => (sha224Start t x).1) freshFacade = _
          rw [List.foldl_cons]
          exact sha224Start_queue ds _ [d] rfl rfl
        refine ⟨by rw [hall], ?_, ?_⟩
        · rw [hall]
          exact resolveWaiters_loaderCalls sha224Resume
            (fun s id r => (facadeCachedCalc_frame _ _ _ _).2.2.1) 0 ([d] ++ ds) _
        · rw [hall]
          exact resolveWaiters_ids sha224Resume 0 ([d] ++ ds) _
  · intro reqs hne hv
    cases reqs with
    | nil => exact absurd rfl hne
    | cons q qs =>
        have hq := hv q (List.mem_cons_self q qs)
        have hstep : (xxhash64Start (freshFacade : FacadeState XXReq) q.data
            (some q.seedLow) (some q.seedHigh)).1
            = { (freshFacade : FacadeState XXReq) with
                cell := CellState.loading [q], loaderCalls := 1 } := by
          simp only [xxhash64Start, Option.getD_some, hq.1, hq.2]
          rfl
        have hall : xxhash64StartAll (q :: qs)
            = { (freshFacade : FacadeState XXReq) with
                cell := CellState.loading ([q] ++ qs), loaderCalls := 1 } := by
          show (q :: qs).foldl
            (fun t r => (xxhash64Start t r.data (some r.seedLow) (some r.seedHigh)).1)
            freshFacade = _
          rw [List.foldl_cons, hstep]
          exact xxhash64Start_queue qs _ [q]
            (fun r hr => hv r (List.mem_cons_of_mem q hr)) rfl rfl
        refine ⟨by rw [hall], ?_, ?_⟩
        · rw [hall]
          exact resolveWaiters_loaderCalls xxhashResume
            (fun s id r => (xxhashSeedAndCalc_frame _ _ _).2.2.1) 0 ([q] ++ qs) _
        · rw [hall]
          exact resolveWaiters_ids xxhashResume 0 ([q] ++ qs) _

/-- Claim C4, witness: two concurrent first-use calls per algorithm
trigger exactly one loader invocation and both observe module 0. -/
theorem claim4_witness :
    ((crc32StartAll [[1], [2]]).loaderCalls = 1 ∧
     (crc32Complete (crc32StartAll [[1], [2]])).1.loaderCalls = 1 ∧
     (crc32Complete (crc32StartAll [[1], [2]])).2.map Prod.fst
       = List.replicate 2 0) ∧
    ((sha224StartAll [[1], [2]]).loaderCalls = 1 ∧
     (sha224Complete (sha224StartAll [[1], [2]])).1.loaderCalls = 1 ∧
     (sha224Complete (sha224StartAll [[1], [2]])).2.map Prod.fst
       = List.replicate 2 0) ∧
    ((xxhash64StartAll [{ data := [1], seedLow := 1, seedHigh := 0 },
        { data := [2], seedLow := 2, seedHigh := 3 }]).loaderCalls = 1 ∧
     (xxhash64Complete (xxhash64StartAll [{ data := [1], seedLow := 1, seedHigh := 0 },
        { data := [2], seedLow := 2, seedHigh := 3 }])).1.loaderCalls = 1 ∧
     (xxhash64Complete (xxhash64StartAll [{ data := [1], seedLow := 1, seedHigh := 0 },
        { data := [2], seedLow := 2, seedHigh := 3 }])).2.map Prod.fst
       = List.replicate 2 0) :=
  ⟨claim4_single_flight.1 [[1], [2]] (by decide),
   claim4_single_flight.2.1 [[1], [2]] (by decide),
   claim4_single_flight.2.2 [{ data := [1], seedLow := 1, seedHigh := 0 },
      { data := [2], seedLow := 2, seedHigh := 3 }] (by decide) (by decide)⟩

end HashWasm
